import Mathlib

/-!
Shallow embedding of `torch/utils/_benchmark/op_fuzzers/binary.py`.

The file models the module-level constant tables, the parameter and tensor
declarations made by `BinaryOpFuzzer.__init__`, and the static method
`BinaryOpFuzzer.structure_params`.  Python dictionaries are modelled as
insertion-ordered association lists; the destructive `dict.pop` /
`dict.__setitem__` operations become pure functions returning the updated
dictionary, and a raised `KeyError` / `TypeError` becomes `Option.none`.
Numeric weight literals (`0.8`, `1. / len(...)`, ...) are modelled as the
exact rationals they denote.
-/

/-- A Python value occurring in a raw-sample dictionary: a scalar integer,
or a tuple of values (tuples are created by `structure_params` itself). -/
inductive PyVal where
  | int : Int → PyVal
  | tup : List PyVal → PyVal
deriving Repr

/-- A Python `dict` with string keys: an insertion-ordered association list. -/
abbrev Dict := List (String × PyVal)

/-- The keys of a dictionary, in order. -/
def keys (d : Dict) : List String := d.map Prod.fst

/-- First binding of a key (`d[k]` lookup; Python dicts hold each key once,
so the first binding is the binding). -/
def dictFind : Dict → String → Option PyVal
  | [], _ => none
  | (k', v) :: rest, k => if k' = k then some v else dictFind rest k

/-- Remove the first binding of a key. -/
def dictErase : Dict → String → Dict
  | [], _ => []
  | (k', v) :: rest, k => if k' = k then rest else (k', v) :: dictErase rest k

/-- `d.pop(k)`: return the value bound to `k` and the dictionary without it;
`none` models the `KeyError` raised when `k` is absent. -/
def dictPop (d : Dict) (k : String) : Option (PyVal × Dict) :=
  match dictFind d k with
  | none => none
  | some v => some (v, dictErase d k)

/-- `d[k] = v`: update the existing binding in place, or append a new one
(Python dicts keep insertion order). -/
def dictSet : Dict → String → PyVal → Dict
  | [], k, v => [(k, v)]
  | (k', v') :: rest, k, v =>
    if k' = k then (k, v) :: rest else (k', v') :: dictSet rest k v

/-- `pre` is a leading run of `s` (character-level `str.startswith`). -/
def strLeads : List Char → List Char → Bool
  | [], _ => true
  | _ :: _, [] => false
  | c :: cs, c' :: s => if c = c' then strLeads cs s else false

/-- `k.startswith("k_any") or k.startswith("k_pow2")`: the key names an
intermediate parameter that `structure_params` must drop. -/
def isIntermediate (k : String) : Bool :=
  strLeads "k_any".data k.data || strLeads "k_pow2".data k.data

/-- The loop `for k in list(params.keys()): if k.startswith(...): params.pop(k)`:
on a duplicate-free dict it removes exactly the intermediate-named bindings. -/
def dropIntermediate (d : Dict) : Dict :=
  d.filter (fun kv => !(isIntermediate kv.1))

/-- Pop the listed keys in order, returning the values in the same order. -/
def popMany : Dict → List String → Option (List PyVal × Dict)
  | d, [] => some ([], d)
  | d, k :: ks =>
    Option.bind (dictPop d k) fun p =>
    Option.bind (popMany p.2 ks) fun q =>
    some (p.1 :: q.1, q.2)

/-- Python slice `t[:n]` on a list, for an `int` slice bound `n` (a negative
bound counts back from the end, clamped at zero). -/
def pySliceTo (l : List PyVal) (n : Int) : List PyVal :=
  if 0 ≤ n then l.take n.toNat else l.take (l.length - (-n).toNat)

/-- A slice bound must be a Python `int`; anything else raises `TypeError`. -/
def asInt : PyVal → Option Int
  | .int n => some n
  | .tup _ => none

/-- `BinaryOpFuzzer.structure_params`.  The working dictionary is the copy
made by `params = params.copy()`; each `pop`/assignment threads the updated
copy, and `none` models an uncaught `KeyError`/`TypeError` (no partial
result is ever produced). -/
def structure_params (params : Dict) : Option Dict :=
  Option.bind (dictPop params "random_value") fun pr =>
  Option.bind (dictPop (dropIntermediate pr.2) "dim") fun pd =>
  Option.bind (asInt pd.1) fun dim =>
  Option.bind (popMany pd.2 ["k0", "k1", "k2"]) fun pk =>
  Option.bind (popMany (dictSet pk.2 "x_size" (.tup (pySliceTo pk.1 dim)))
      ["x_step_0", "x_step_1", "x_step_2"]) fun psx =>
  Option.bind (popMany (dictSet psx.2 "x_steps" (.tup (pySliceTo psx.1 dim)))
      ["y_k0", "y_k1", "y_k2"]) fun pyk =>
  Option.bind (popMany (dictSet pyk.2 "y_size" (.tup (pySliceTo pyk.1 dim)))
      ["y_step_0", "y_step_1", "y_step_2"]) fun pst =>
  some (dictSet pst.2 "y_steps" (.tup (pySliceTo pst.1 dim)))

/-- The size regimes (`SMALL`/`MEDIUM`/`LARGE`). -/
inductive Scale where
  | small | medium | large
deriving DecidableEq, Repr

/-- `_MIN_DIM_SIZE = 8`. -/
def MIN_DIM_SIZE : Nat := 8

/-- `_MAX_DIM_SIZE`. -/
def MAX_DIM_SIZE : Scale → Nat
  | .small => 128
  | .medium => 1024
  | .large => 16 * 1024 ^ 2

/-- `int(np.log2 n)` for the arguments used by the module (all exact powers
of two, so the float logarithm is exact): the floor base-2 logarithm,
computed here by counting the exponents `j < 64` with `2 ^ j ≤ n`. -/
def floorLog2 (n : Nat) : Nat :=
  ((List.range 64).filter (fun j => 2 ^ j ≤ n)).length - 1

/-- `_POW_TWO_SIZES[scale] = tuple(2 ** i for i in
range(int(np.log2(_MIN_DIM_SIZE)), int(np.log2(max_size)) + 1))`. -/
def POW_TWO_SIZES (scale : Scale) : List Nat :=
  (List.range' (floorLog2 MIN_DIM_SIZE)
      (floorLog2 (MAX_DIM_SIZE scale) + 1 - floorLog2 MIN_DIM_SIZE)).map
    (fun i => 2 ^ i)

/-- `_MIN_ELEMENTS`. -/
def MIN_ELEMENTS : Scale → Nat
  | .small => 0
  | .medium => 128
  | .large => 4 * 1024

/-- One outcome of a weighted discrete distribution: a literal value or a
`ParameterAlias` of another declared parameter. -/
inductive Outcome where
  | lit : Nat → Outcome
  | alias : String → Outcome
deriving DecidableEq, Repr

/-- The resolution rule of a `FuzzedParameter`: either a `minval`/`maxval`
range with a named distribution shape, or a weighted discrete distribution
(an ordered outcome-to-weight mapping). -/
inductive DistSpec where
  | range (minval maxval : Nat) (distName : String)
  | discrete (weights : List (Outcome × ℚ))
deriving Repr

/-- One `FuzzedParameter(...)` declaration. -/
structure FuzzedParameter where
  name : String
  distribution : DistSpec
  strict : Bool
deriving Repr

/-- One `FuzzedTensor(...)` declaration; keyword arguments left out at the
call site are `none`. -/
structure FuzzedTensor where
  name : String
  size : List String
  steps : List String
  probability_contiguous : ℚ
  min_elements : Option Nat
  max_elements : Option Nat
  max_allocation_bytes : Option Nat
  dim_parameter : Option String
  dtype : String
  cuda : Bool
  requires_grad : Bool
deriving Repr

/-- The `parameters=[...]` list passed to `Fuzzer.__init__` by
`BinaryOpFuzzer.__init__`, with the `for i in range(3)` comprehensions and
f-strings unrolled (nested lists flattened in order; the step comprehension
iterates `for i in range(3) for name in ("x", "y")`). -/
def binaryOpFuzzer_parameters (scale : Scale) : List FuzzedParameter :=
  [⟨"dim", .discrete [(.lit 1, 3/10), (.lit 2, 2/5), (.lit 3, 3/10)], true⟩,
   ⟨"k_any_0", .range MIN_DIM_SIZE (MAX_DIM_SIZE scale) "loguniform", false⟩,
   ⟨"k_any_1", .range MIN_DIM_SIZE (MAX_DIM_SIZE scale) "loguniform", false⟩,
   ⟨"k_any_2", .range MIN_DIM_SIZE (MAX_DIM_SIZE scale) "loguniform", false⟩,
   ⟨"k_pow2_0", .discrete ((POW_TWO_SIZES scale).map
      (fun size => (.lit size, 1 / ((POW_TWO_SIZES scale).length : ℚ)))), false⟩,
   ⟨"k_pow2_1", .discrete ((POW_TWO_SIZES scale).map
      (fun size => (.lit size, 1 / ((POW_TWO_SIZES scale).length : ℚ)))), false⟩,
   ⟨"k_pow2_2", .discrete ((POW_TWO_SIZES scale).map
      (fun size => (.lit size, 1 / ((POW_TWO_SIZES scale).length : ℚ)))), false⟩,
   ⟨"k0", .discrete [(.alias "k_any_0", 4/5), (.alias "k_pow2_0", 1/5)], true⟩,
   ⟨"k1", .discrete [(.alias "k_any_1", 4/5), (.alias "k_pow2_1", 1/5)], true⟩,
   ⟨"k2", .discrete [(.alias "k_any_2", 4/5), (.alias "k_pow2_2", 1/5)], true⟩,
   ⟨"y_k0", .discrete [(.alias "k0", 4/5), (.lit 1, 1/5)], true⟩,
   ⟨"y_k1", .discrete [(.alias "k1", 4/5), (.lit 1, 1/5)], true⟩,
   ⟨"y_k2", .discrete [(.alias "k2", 4/5), (.lit 1, 1/5)], true⟩,
   ⟨"x_step_0", .discrete [(.lit 1, 4/5), (.lit 2, 3/50), (.lit 4, 3/50),
      (.lit 8, 1/25), (.lit 16, 1/25)], false⟩,
   ⟨"y_step_0", .discrete [(.lit 1, 4/5), (.lit 2, 3/50), (.lit 4, 3/50),
      (.lit 8, 1/25), (.lit 16, 1/25)], false⟩,
   ⟨"x_step_1", .discrete [(.lit 1, 4/5), (.lit 2, 3/50), (.lit 4, 3/50),
      (.lit 8, 1/25), (.lit 16, 1/25)], false⟩,
   ⟨"y_step_1", .discrete [(.lit 1, 4/5), (.lit 2, 3/50), (.lit 4, 3/50),
      (.lit 8, 1/25), (.lit 16, 1/25)], false⟩,
   ⟨"x_step_2", .discrete [(.lit 1, 4/5), (.lit 2, 3/50), (.lit 4, 3/50),
      (.lit 8, 1/25), (.lit 16, 1/25)], false⟩,
   ⟨"y_step_2", .discrete [(.lit 1, 4/5), (.lit 2, 3/50), (.lit 4, 3/50),
      (.lit 8, 1/25), (.lit 16, 1/25)], false⟩,
   ⟨"random_value", .range 0 (2 ^ 32 - 1) "uniform", false⟩]

/-- The `tensors=[...]` list passed to `Fuzzer.__init__`: the `x` request
passes `min_elements`/`max_elements`/`max_allocation_bytes`, the `y`
request passes only `max_allocation_bytes` (its element counts are left
unspecified at the call site). -/
def binaryOpFuzzer_tensors (scale : Scale) (dtype : String)
    (cuda requires_grad : Bool) : List FuzzedTensor :=
  [⟨"x", ["k0", "k1", "k2"], ["x_step_0", "x_step_1", "x_step_2"], 3/4,
    some (MIN_ELEMENTS scale), some (32 * 1024 ^ 2), some (2 * 1024 ^ 3),
    some "dim", dtype, cuda, requires_grad⟩,
   ⟨"y", ["y_k0", "y_k1", "y_k2"], ["y_step_0", "y_step_1", "y_step_2"], 3/4,
    none, none, some (2 * 1024 ^ 3),
    some "dim", dtype, cuda, requires_grad⟩]

/-- The f-string `f"k_pow2_{i}"` for the axis indices in use. -/
def kPow2Name : Nat → String
  | 0 => "k_pow2_0"
  | 1 => "k_pow2_1"
  | 2 => "k_pow2_2"
  | _ => ""

/-- The f-string `f"y_k{i}"` for the axis indices in use. -/
def ykName : Nat → String
  | 0 => "y_k0"
  | 1 => "y_k1"
  | 2 => "y_k2"
  | _ => ""

/-- The f-string `f"k{i}"` for the axis indices in use. -/
def kName : Nat → String
  | 0 => "k0"
  | 1 => "k1"
  | 2 => "k2"
  | _ => ""

/-- Erase several keys in sequence. -/
def eraseMany (d : Dict) (ks : List String) : Dict := ks.foldl dictErase d

/-- The working dictionary after `params.pop("random_value")` and the
intermediate-key removal loop. -/
def stage1 (d : Dict) : Dict := dropIntermediate (dictErase d "random_value")

/-- ... after `dim = params.pop("dim")`. -/
def stage2 (d : Dict) : Dict := dictErase (stage1 d) "dim"

/-- ... after popping `k0, k1, k2`. -/
def stage3 (d : Dict) : Dict := eraseMany (stage2 d) ["k0", "k1", "k2"]

/-- ... after assigning `x_size` and popping the `x_step_*` keys. -/
def stage4 (d : Dict) (xv : PyVal) : Dict :=
  eraseMany (dictSet (stage3 d) "x_size" xv) ["x_step_0", "x_step_1", "x_step_2"]

/-- ... after assigning `x_steps` and popping the `y_k*` keys. -/
def stage5 (d : Dict) (xv sv : PyVal) : Dict :=
  eraseMany (dictSet (stage4 d xv) "x_steps" sv) ["y_k0", "y_k1", "y_k2"]

/-- ... after assigning `y_size` and popping the `y_step_*` keys. -/
def stage6 (d : Dict) (xv sv yv : PyVal) : Dict :=
  eraseMany (dictSet (stage5 d xv sv) "y_size" yv) ["y_step_0", "y_step_1", "y_step_2"]

/-- The returned dictionary, after the final `y_steps` assignment. -/
def finalOut (d : Dict) (xv sv yv tv : PyVal) : Dict :=
  dictSet (stage6 d xv sv yv) "y_steps" tv

/-- The state visible to one call of `structure_params`: the caller's
dictionary (`arg`) and the local working dictionary (`work`), which starts
as the copy `params.copy()`. -/
structure SPState where
  arg : Dict
  work : Dict

/-- `work.pop(k)` leaves the caller's dictionary untouched. -/
def statePop (s : SPState) (k : String) : Option (PyVal × SPState) :=
  (dictPop s.work k).map (fun p => (p.1, ⟨s.arg, p.2⟩))

/-- The intermediate-key removal loop runs on the working copy. -/
def stateDropIntermediate (s : SPState) : SPState :=
  ⟨s.arg, dropIntermediate s.work⟩

/-- `work[k] = v` on the working copy. -/
def stateSet (s : SPState) (k : String) (v : PyVal) : SPState :=
  ⟨s.arg, dictSet s.work k v⟩

/-- Pop several keys from the working copy. -/
def statePopMany (s : SPState) (ks : List String) : Option (List PyVal × SPState) :=
  (popMany s.work ks).map (fun p => (p.1, ⟨s.arg, p.2⟩))

/-- The body of `structure_params` with the caller's dictionary threaded
explicitly; on failure the caller's dictionary as of the raising operation
is reported alongside `none`. -/
def structure_params_go (s : SPState) : Option Dict × Dict :=
  match statePop s "random_value" with
  | none => (none, s.arg)
  | some (_, s1) =>
    match statePop (stateDropIntermediate s1) "dim" with
    | none => (none, s1.arg)
    | some (vd, s2) =>
      match asInt vd with
      | none => (none, s2.arg)
      | some dim =>
        match statePopMany s2 ["k0", "k1", "k2"] with
        | none => (none, s2.arg)
        | some (ks, s3) =>
          match statePopMany (stateSet s3 "x_size" (.tup (pySliceTo ks dim)))
              ["x_step_0", "x_step_1", "x_step_2"] with
          | none => (none, s3.arg)
          | some (xs, s4) =>
            match statePopMany (stateSet s4 "x_steps" (.tup (pySliceTo xs dim)))
                ["y_k0", "y_k1", "y_k2"] with
            | none => (none, s4.arg)
            | some (ys, s5) =>
              match statePopMany (stateSet s5 "y_size" (.tup (pySliceTo ys dim)))
                  ["y_step_0", "y_step_1", "y_step_2"] with
              | none => (none, s5.arg)
              | some (ts, s6) =>
                (some (stateSet s6 "y_steps" (.tup (pySliceTo ts dim))).work, s6.arg)

/-- One call of `structure_params` observed together with its effect on the
caller's dictionary: `params = params.copy()` starts the working dictionary
as an independent copy of the argument's entries. -/
def structure_params_run (params : Dict) : Option Dict × Dict :=
  structure_params_go ⟨params, params⟩

/-- The keys whose absence makes `structure_params` raise a `KeyError`. -/
def requiredKeys : List String :=
  ["random_value", "dim", "k0", "k1", "k2",
   "x_step_0", "x_step_1", "x_step_2",
   "y_k0", "y_k1", "y_k2",
   "y_step_0", "y_step_1", "y_step_2"]

/-- All parameter names declared by `BinaryOpFuzzer.__init__`. -/
def declaredNames : List String :=
  ["dim", "k_any_0", "k_any_1", "k_any_2",
   "k_pow2_0", "k_pow2_1", "k_pow2_2",
   "k0", "k1", "k2", "y_k0", "y_k1", "y_k2",
   "x_step_0", "y_step_0", "x_step_1", "y_step_1", "x_step_2", "y_step_2",
   "random_value"]

/-- A concrete fully-resolved raw sample with `dim = 2`. -/
def declaredSample : Dict :=
  [("dim", .int 2),
   ("k_any_0", .int 10), ("k_any_1", .int 11), ("k_any_2", .int 12),
   ("k_pow2_0", .int 16), ("k_pow2_1", .int 32), ("k_pow2_2", .int 64),
   ("k0", .int 10), ("k1", .int 32), ("k2", .int 12),
   ("y_k0", .int 10), ("y_k1", .int 1), ("y_k2", .int 12),
   ("x_step_0", .int 1), ("y_step_0", .int 2),
   ("x_step_1", .int 1), ("y_step_1", .int 1),
   ("x_step_2", .int 4), ("y_step_2", .int 1),
   ("random_value", .int 12345)]

/-- A raw sample whose `dim` entry is the out-of-range integer 5. -/
def sampleDim5 : Dict :=
  [("dim", .int 5),
   ("k_any_0", .int 10), ("k_any_1", .int 11), ("k_any_2", .int 12),
   ("k_pow2_0", .int 16), ("k_pow2_1", .int 32), ("k_pow2_2", .int 64),
   ("k0", .int 10), ("k1", .int 32), ("k2", .int 12),
   ("y_k0", .int 10), ("y_k1", .int 1), ("y_k2", .int 12),
   ("x_step_0", .int 1), ("y_step_0", .int 2),
   ("x_step_1", .int 1), ("y_step_1", .int 1),
   ("x_step_2", .int 4), ("y_step_2", .int 1),
   ("random_value", .int 12345)]

/-- A dictionary holding every declared parameter name plus one foreign
key `"foo"`. -/
def c1Input : Dict := declaredSample ++ [("foo", .int 0)]

/-- The key list of the dictionary `structure_params` returns (empty when
it raises). -/
def outKeys (d : Dict) : List String :=
  match structure_params d with
  | some o => keys o
  | none => []

theorem dictFind_erase_of_ne (d : Dict) (a k : String) (h : k ≠ a) :
    dictFind (dictErase d a) k = dictFind d k := by
  induction d with
  | nil => rfl
  | cons kv rest ih =>
    obtain ⟨k', v⟩ := kv
    simp only [dictErase]
    by_cases h1 : k' = a
    · subst h1
      rw [if_pos rfl]
      simp only [dictFind, if_neg (Ne.symm h)]
    · rw [if_neg h1]
      simp only [dictFind]
      by_cases h2 : k' = k
      · rw [if_pos h2, if_pos h2]
      · rw [if_neg h2, if_neg h2, ih]

theorem dictFind_drop_of (d : Dict) (k : String) (h : isIntermediate k = false) :
    dictFind (dropIntermediate d) k = dictFind d k := by
  induction d with
  | nil => rfl
  | cons kv rest ih =>
    obtain ⟨k', v⟩ := kv
    have hrest : dropIntermediate ((k', v) :: rest) =
        if (!isIntermediate k') = true then (k', v) :: dropIntermediate rest
        else dropIntermediate rest := by
      simp [dropIntermediate, List.filter_cons]
    cases h2 : isIntermediate k'
    · rw [hrest, h2]
      simp only [Bool.not_false, if_pos rfl]
      simp only [dictFind]
      by_cases h1 : k' = k
      · rw [if_pos h1, if_pos h1]
      · rw [if_neg h1, if_neg h1, ih]
    · rw [hrest, h2]
      have h1 : k' ≠ k := by
        intro hh
        rw [hh, h] at h2
        cases h2
      simp only [Bool.not_true, Bool.false_eq_true, if_false]
      simp only [dictFind, if_neg h1]
      exact ih

theorem dictFind_set_of_ne (d : Dict) (a : String) (v : PyVal) (k : String)
    (h : k ≠ a) : dictFind (dictSet d a v) k = dictFind d k := by
  induction d with
  | nil => simp [dictSet, dictFind, if_neg (Ne.symm h)]
  | cons kv rest ih =>
    obtain ⟨k', v'⟩ := kv
    simp only [dictSet]
    by_cases h1 : k' = a
    · subst h1
      rw [if_pos rfl]
      simp only [dictFind, if_neg (Ne.symm h)]
    · rw [if_neg h1]
      simp only [dictFind]
      by_cases h2 : k' = k
      · rw [if_pos h2, if_pos h2]
      · rw [if_neg h2, if_neg h2, ih]

theorem dictFind_set_self (d : Dict) (a : String) (v : PyVal) :
    dictFind (dictSet d a v) a = some v := by
  induction d with
  | nil => simp [dictSet, dictFind]
  | cons kv rest ih =>
    obtain ⟨k', v'⟩ := kv
    simp only [dictSet]
    by_cases h1 : k' = a
    · rw [if_pos h1]
      simp [dictFind]
    · rw [if_neg h1]
      simp only [dictFind, if_neg h1, ih]

theorem dictFind_eraseMany_of (ks : List String) (d : Dict) (k : String)
    (h : ∀ a ∈ ks, k ≠ a) :
    dictFind (eraseMany d ks) k = dictFind d k := by
  induction ks generalizing d with
  | nil => rfl
  | cons a ks ih =>
    have hrw : eraseMany d (a :: ks) = eraseMany (dictErase d a) ks := rfl
    rw [hrw, ih _ (fun b hb => h b (List.mem_cons_of_mem _ hb)),
      dictFind_erase_of_ne _ _ _ (h a (List.mem_cons_self _ _))]

theorem keys_dictErase (d : Dict) (a : String) :
    keys (dictErase d a) = (keys d).erase a := by
  induction d with
  | nil => rfl
  | cons kv rest ih =>
    obtain ⟨k', v⟩ := kv
    by_cases h1 : k' = a
    · subst h1
      simp [dictErase, keys, List.erase_cons]
    · simp [dictErase, keys, List.erase_cons, h1]
      exact ih

theorem keys_dropIntermediate (d : Dict) :
    keys (dropIntermediate d) = (keys d).filter (fun k => !(isIntermediate k)) := by
  induction d with
  | nil => rfl
  | cons kv rest ih =>
    obtain ⟨k', v⟩ := kv
    cases h : isIntermediate k'
    · simp [dropIntermediate, keys, List.filter_cons, h] at ih ⊢
      try exact ih
    · simp [dropIntermediate, keys, List.filter_cons, h] at ih ⊢
      try exact ih

theorem mem_keys_dictSet (d : Dict) (a : String) (v : PyVal) (k : String) :
    k ∈ keys (dictSet d a v) ↔ k = a ∨ k ∈ keys d := by
  induction d with
  | nil => simp [dictSet, keys]
  | cons kv rest ih =>
    obtain ⟨k', v'⟩ := kv
    simp only [dictSet]
    by_cases h1 : k' = a
    · subst h1
      rw [if_pos rfl]
      simp [keys]
      try tauto
    · rw [if_neg h1]
      simp only [keys, List.map_cons, List.mem_cons]
      rw [show (k ∈ List.map Prod.fst (dictSet rest a v)) = (k ∈ keys (dictSet rest a v)) from rfl]
      rw [show (k ∈ List.map Prod.fst rest) = (k ∈ keys rest) from rfl]
      constructor
      · rintro (h | h)
        · tauto
        · rcases (ih.1 h) with h' | h' <;> tauto
      · rintro (h | h)
        · exact Or.inr (ih.2 (Or.inl h))
        · rcases h with h | h
          · tauto
          · exact Or.inr (ih.2 (Or.inr h))

theorem keys_dictSet_nodup (d : Dict) (a : String) (v : PyVal)
    (h : (keys d).Nodup) : (keys (dictSet d a v)).Nodup := by
  induction d with
  | nil => simp [dictSet, keys]
  | cons kv rest ih =>
    obtain ⟨k', v'⟩ := kv
    simp only [keys, List.map_cons, List.nodup_cons] at h
    simp only [dictSet]
    by_cases h1 : k' = a
    · rw [if_pos h1]
      simp only [keys, List.map_cons, List.nodup_cons]
      exact ⟨h1 ▸ h.1, h.2⟩
    · rw [if_neg h1]
      simp only [keys, List.map_cons, List.nodup_cons]
      refine ⟨?_, ih h.2⟩
      intro hmem
      rcases (mem_keys_dictSet rest a v k').1 hmem with h' | h'
      · exact h1 h'
      · exact h.1 h'

theorem mem_keys_iff_find (d : Dict) (k : String) :
    k ∈ keys d ↔ ∃ v, dictFind d k = some v := by
  induction d with
  | nil => simp [keys, dictFind]
  | cons kv rest ih =>
    obtain ⟨k', v⟩ := kv
    by_cases h1 : k' = k
    · subst h1
      simp [keys, dictFind]
    · simp only [keys, List.map_cons, List.mem_cons, dictFind, if_neg h1]
      simp only [keys] at ih
      rw [ih]
      refine ⟨?_, Or.inr⟩
      rintro (h | h)
      · exact absurd h.symm h1
      · exact h

theorem keys_erase_subset (d : Dict) (a k : String)
    (h : k ∈ keys (dictErase d a)) : k ∈ keys d := by
  rw [keys_dictErase] at h
  exact List.mem_of_mem_erase h

theorem keys_drop_subset (d : Dict) (k : String)
    (h : k ∈ keys (dropIntermediate d)) : k ∈ keys d := by
  rw [keys_dropIntermediate] at h
  exact List.mem_of_mem_filter h

theorem keys_eraseMany_subset (ks : List String) (d : Dict) (k : String)
    (h : k ∈ keys (eraseMany d ks)) : k ∈ keys d := by
  induction ks generalizing d with
  | nil => exact h
  | cons a ks ih => exact keys_erase_subset _ _ _ (ih _ h)

theorem keys_dictErase_nodup (d : Dict) (a : String) (h : (keys d).Nodup) :
    (keys (dictErase d a)).Nodup := by
  rw [keys_dictErase]
  exact h.erase a

theorem keys_drop_nodup (d : Dict) (h : (keys d).Nodup) :
    (keys (dropIntermediate d)).Nodup := by
  rw [keys_dropIntermediate]
  exact h.filter _

theorem keys_eraseMany_nodup (ks : List String) (d : Dict) (h : (keys d).Nodup) :
    (keys (eraseMany d ks)).Nodup := by
  induction ks generalizing d with
  | nil => exact h
  | cons a ks ih => exact ih _ (keys_dictErase_nodup _ _ h)

theorem mem_keys_dictErase (d : Dict) (a k : String) (h : (keys d).Nodup) :
    k ∈ keys (dictErase d a) ↔ k ≠ a ∧ k ∈ keys d := by
  rw [keys_dictErase]
  exact h.mem_erase_iff

theorem mem_keys_drop (d : Dict) (k : String) :
    k ∈ keys (dropIntermediate d) ↔ k ∈ keys d ∧ isIntermediate k = false := by
  rw [keys_dropIntermediate]
  simp [List.mem_filter]

theorem mem_keys_eraseMany (ks : List String) (d : Dict) (k : String)
    (h : (keys d).Nodup) :
    k ∈ keys (eraseMany d ks) ↔ k ∈ keys d ∧ k ∉ ks := by
  induction ks generalizing d with
  | nil =>
    constructor
    · intro h'
      exact ⟨h', by simp⟩
    · intro h'
      exact h'.1
  | cons a ks ih =>
    have hrw : eraseMany d (a :: ks) = eraseMany (dictErase d a) ks := rfl
    rw [hrw, ih _ (keys_dictErase_nodup _ _ h), mem_keys_dictErase _ _ _ h]
    simp only [List.mem_cons]
    tauto

theorem popMany3 (X : Dict) (k1 k2 k3 : String) (v1 v2 v3 : PyVal)
    (h1 : dictFind X k1 = some v1)
    (h2 : dictFind (dictErase X k1) k2 = some v2)
    (h3 : dictFind (dictErase (dictErase X k1) k2) k3 = some v3) :
    popMany X [k1, k2, k3] = some ([v1, v2, v3], eraseMany X [k1, k2, k3]) := by
  simp [popMany, dictPop, h1, h2, h3, eraseMany]

theorem structure_params_exec (d : Dict) (rv : PyVal) (n : Int)
    (a0 a1 a2 s0 s1 s2 b0 b1 b2 t0 t1 t2 : PyVal)
    (hrv : dictFind d "random_value" = some rv)
    (hdim : dictFind d "dim" = some (.int n))
    (ha0 : dictFind d "k0" = some a0)
    (ha1 : dictFind d "k1" = some a1)
    (ha2 : dictFind d "k2" = some a2)
    (hs0 : dictFind d "x_step_0" = some s0)
    (hs1 : dictFind d "x_step_1" = some s1)
    (hs2 : dictFind d "x_step_2" = some s2)
    (hb0 : dictFind d "y_k0" = some b0)
    (hb1 : dictFind d "y_k1" = some b1)
    (hb2 : dictFind d "y_k2" = some b2)
    (ht0 : dictFind d "y_step_0" = some t0)
    (ht1 : dictFind d "y_step_1" = some t1)
    (ht2 : dictFind d "y_step_2" = some t2) :
    structure_params d = some (finalOut d
      (.tup (pySliceTo [a0, a1, a2] n)) (.tup (pySliceTo [s0, s1, s2] n))
      (.tup (pySliceTo [b0, b1, b2] n)) (.tup (pySliceTo [t0, t1, t2] n))) := by
  have hst1 : ∀ k v, isIntermediate k = false → k ≠ "random_value" →
      dictFind d k = some v → dictFind (stage1 d) k = some v := by
    intro k v hk hk2 hfind
    simp only [stage1]
    rw [dictFind_drop_of _ _ hk, dictFind_erase_of_ne _ _ _ hk2, hfind]
  have hst2 : ∀ k v, k ≠ "dim" →
      dictFind (stage1 d) k = some v → dictFind (stage2 d) k = some v := by
    intro k v hk hfind
    simp only [stage2]
    rw [dictFind_erase_of_ne _ _ _ hk, hfind]
  have hst3 : ∀ k v, k ∉ (["k0", "k1", "k2"] : List String) →
      dictFind (stage2 d) k = some v → dictFind (stage3 d) k = some v := by
    intro k v hk hfind
    simp only [stage3]
    rw [dictFind_eraseMany_of _ _ _ (fun a ha he => hk (by rw [he]; exact ha)), hfind]
  have hst4 : ∀ k v xv, k ≠ "x_size" →
      k ∉ (["x_step_0", "x_step_1", "x_step_2"] : List String) →
      dictFind (stage3 d) k = some v → dictFind (stage4 d xv) k = some v := by
    intro k v xv hk1 hk2 hfind
    simp only [stage4]
    rw [dictFind_eraseMany_of _ _ _ (fun a ha he => hk2 (by rw [he]; exact ha)),
      dictFind_set_of_ne _ _ _ _ hk1, hfind]
  have hst5 : ∀ k v xv sv, k ≠ "x_steps" →
      k ∉ (["y_k0", "y_k1", "y_k2"] : List String) →
      dictFind (stage4 d xv) k = some v → dictFind (stage5 d xv sv) k = some v := by
    intro k v xv sv hk1 hk2 hfind
    simp only [stage5]
    rw [dictFind_eraseMany_of _ _ _ (fun a ha he => hk2 (by rw [he]; exact ha)),
      dictFind_set_of_ne _ _ _ _ hk1, hfind]
  have fdimPop : dictPop (dropIntermediate (dictErase d "random_value")) "dim" =
      some (.int n, stage2 d) := by
    simp only [dictPop]
    rw [show dictFind (dropIntermediate (dictErase d "random_value")) "dim" =
      some (.int n) from hst1 _ _ (by decide) (by decide) hdim]
    rfl
  have frv : dictPop d "random_value" = some (rv, dictErase d "random_value") := by
    simp only [dictPop]
    rw [hrv]
  have fk0 : dictFind (stage2 d) "k0" = some a0 :=
    hst2 _ _ (by decide) (hst1 _ _ (by decide) (by decide) ha0)
  have fk1 : dictFind (dictErase (stage2 d) "k0") "k1" = some a1 := by
    rw [dictFind_erase_of_ne _ _ _ (by decide)]
    exact hst2 _ _ (by decide) (hst1 _ _ (by decide) (by decide) ha1)
  have fk2 : dictFind (dictErase (dictErase (stage2 d) "k0") "k1") "k2" = some a2 := by
    rw [dictFind_erase_of_ne _ _ _ (by decide), dictFind_erase_of_ne _ _ _ (by decide)]
    exact hst2 _ _ (by decide) (hst1 _ _ (by decide) (by decide) ha2)
  have pk : popMany (stage2 d) ["k0", "k1", "k2"] = some ([a0, a1, a2], stage3 d) :=
    popMany3 _ _ _ _ _ _ _ fk0 fk1 fk2
  have fx0 : ∀ xv, dictFind (dictSet (stage3 d) "x_size" xv) "x_step_0" = some s0 := by
    intro xv
    rw [dictFind_set_of_ne _ _ _ _ (by decide)]
    exact hst3 _ _ (by decide) (hst2 _ _ (by decide)
      (hst1 _ _ (by decide) (by decide) hs0))
  have fx1 : ∀ xv, dictFind (dictErase (dictSet (stage3 d) "x_size" xv) "x_step_0")
      "x_step_1" = some s1 := by
    intro xv
    rw [dictFind_erase_of_ne _ _ _ (by decide), dictFind_set_of_ne _ _ _ _ (by decide)]
    exact hst3 _ _ (by decide) (hst2 _ _ (by decide)
      (hst1 _ _ (by decide) (by decide) hs1))
  have fx2 : ∀ xv, dictFind (dictErase (dictErase (dictSet (stage3 d) "x_size" xv)
      "x_step_0") "x_step_1") "x_step_2" = some s2 := by
    intro xv
    rw [dictFind_erase_of_ne _ _ _ (by decide), dictFind_erase_of_ne _ _ _ (by decide),
      dictFind_set_of_ne _ _ _ _ (by decide)]
    exact hst3 _ _ (by decide) (hst2 _ _ (by decide)
      (hst1 _ _ (by decide) (by decide) hs2))
  have psx : ∀ xv, popMany (dictSet (stage3 d) "x_size" xv)
      ["x_step_0", "x_step_1", "x_step_2"] = some ([s0, s1, s2], stage4 d xv) :=
    fun xv => popMany3 _ _ _ _ _ _ _ (fx0 xv) (fx1 xv) (fx2 xv)
  have fy0 : ∀ xv sv, dictFind (dictSet (stage4 d xv) "x_steps" sv) "y_k0" = some b0 := by
    intro xv sv
    rw [dictFind_set_of_ne _ _ _ _ (by decide)]
    exact hst4 _ _ _ (by decide) (by decide) (hst3 _ _ (by decide)
      (hst2 _ _ (by decide) (hst1 _ _ (by decide) (by decide) hb0)))
  have fy1 : ∀ xv sv, dictFind (dictErase (dictSet (stage4 d xv) "x_steps" sv) "y_k0")
      "y_k1" = some b1 := by
    intro xv sv
    rw [dictFind_erase_of_ne _ _ _ (by decide), dictFind_set_of_ne _ _ _ _ (by decide)]
    exact hst4 _ _ _ (by decide) (by decide) (hst3 _ _ (by decide)
      (hst2 _ _ (by decide) (hst1 _ _ (by decide) (by decide) hb1)))
  have fy2 : ∀ xv sv, dictFind (dictErase (dictErase (dictSet (stage4 d xv) "x_steps" sv)
      "y_k0") "y_k1") "y_k2" = some b2 := by
    intro xv sv
    rw [dictFind_erase_of_ne _ _ _ (by decide), dictFind_erase_of_ne _ _ _ (by decide),
      dictFind_set_of_ne _ _ _ _ (by decide)]
    exact hst4 _ _ _ (by decide) (by decide) (hst3 _ _ (by decide)
      (hst2 _ _ (by decide) (hst1 _ _ (by decide) (by decide) hb2)))
  have pyk : ∀ xv sv, popMany (dictSet (stage4 d xv) "x_steps" sv)
      ["y_k0", "y_k1", "y_k2"] = some ([b0, b1, b2], stage5 d xv sv) :=
    fun xv sv => popMany3 _ _ _ _ _ _ _ (fy0 xv sv) (fy1 xv sv) (fy2 xv sv)
  have ft0 : ∀ xv sv yv, dictFind (dictSet (stage5 d xv sv) "y_size" yv) "y_step_0" =
      some t0 := by
    intro xv sv yv
    rw [dictFind_set_of_ne _ _ _ _ (by decide)]
    exact hst5 _ _ _ _ (by decide) (by decide) (hst4 _ _ _ (by decide) (by decide)
      (hst3 _ _ (by decide) (hst2 _ _ (by decide)
        (hst1 _ _ (by decide) (by decide) ht0))))
  have ft1 : ∀ xv sv yv, dictFind (dictErase (dictSet (stage5 d xv sv) "y_size" yv)
      "y_step_0") "y_step_1" = some t1 := by
    intro xv sv yv
    rw [dictFind_erase_of_ne _ _ _ (by decide), dictFind_set_of_ne _ _ _ _ (by decide)]
    exact hst5 _ _ _ _ (by decide) (by decide) (hst4 _ _ _ (by decide) (by decide)
      (hst3 _ _ (by decide) (hst2 _ _ (by decide)
        (hst1 _ _ (by decide) (by decide) ht1))))
  have ft2 : ∀ xv sv yv, dictFind (dictErase (dictErase (dictSet (stage5 d xv sv)
      "y_size" yv) "y_step_0") "y_step_1") "y_step_2" = some t2 := by
    intro xv sv yv
    rw [dictFind_erase_of_ne _ _ _ (by decide), dictFind_erase_of_ne _ _ _ (by decide),
      dictFind_set_of_ne _ _ _ _ (by decide)]
    exact hst5 _ _ _ _ (by decide) (by decide) (hst4 _ _ _ (by decide) (by decide)
      (hst3 _ _ (by decide) (hst2 _ _ (by decide)
        (hst1 _ _ (by decide) (by decide) ht2))))
  have pst : ∀ xv sv yv, popMany (dictSet (stage5 d xv sv) "y_size" yv)
      ["y_step_0", "y_step_1", "y_step_2"] = some ([t0, t1, t2], stage6 d xv sv yv) :=
    fun xv sv yv => popMany3 _ _ _ _ _ _ _ (ft0 xv sv yv) (ft1 xv sv yv) (ft2 xv sv yv)
  simp only [structure_params]
  rw [frv]
  simp only [Option.some_bind]
  rw [fdimPop]
  simp only [Option.some_bind, asInt]
  rw [pk]
  simp only [Option.some_bind]
  rw [psx]
  simp only [Option.some_bind]
  rw [pyk]
  simp only [Option.some_bind]
  rw [pst]
  simp only [Option.some_bind]
  rfl

theorem dictFind_finalOut_y_steps (d : Dict) (xv sv yv tv : PyVal) :
    dictFind (finalOut d xv sv yv tv) "y_steps" = some tv := by
  simp only [finalOut]
  exact dictFind_set_self _ _ _

theorem dictFind_finalOut_y_size (d : Dict) (xv sv yv tv : PyVal) :
    dictFind (finalOut d xv sv yv tv) "y_size" = some yv := by
  simp only [finalOut, stage6]
  rw [dictFind_set_of_ne _ _ _ _ (by decide),
    dictFind_eraseMany_of _ _ _ (by decide),
    dictFind_set_self]

theorem dictFind_finalOut_x_steps (d : Dict) (xv sv yv tv : PyVal) :
    dictFind (finalOut d xv sv yv tv) "x_steps" = some sv := by
  simp only [finalOut, stage6, stage5]
  rw [dictFind_set_of_ne _ _ _ _ (by decide),
    dictFind_eraseMany_of _ _ _ (by decide),
    dictFind_set_of_ne _ _ _ _ (by decide),
    dictFind_eraseMany_of _ _ _ (by decide),
    dictFind_set_self]

theorem dictFind_finalOut_x_size (d : Dict) (xv sv yv tv : PyVal) :
    dictFind (finalOut d xv sv yv tv) "x_size" = some xv := by
  simp only [finalOut, stage6, stage5, stage4]
  rw [dictFind_set_of_ne _ _ _ _ (by decide),
    dictFind_eraseMany_of _ _ _ (by decide),
    dictFind_set_of_ne _ _ _ _ (by decide),
    dictFind_eraseMany_of _ _ _ (by decide),
    dictFind_set_of_ne _ _ _ _ (by decide),
    dictFind_eraseMany_of _ _ _ (by decide),
    dictFind_set_self]

set_option maxHeartbeats 800000 in
theorem mem_keys_finalOut (d : Dict) (h : (keys d).Nodup) (xv sv yv tv : PyVal)
    (k : String) :
    k ∈ keys (finalOut d xv sv yv tv) ↔
      k ∈ (["x_size", "x_steps", "y_size", "y_steps"] : List String) ∨
      (k ∈ keys d ∧ k ∉ requiredKeys ∧ isIntermediate k = false) := by
  have nd1 : (keys (dictErase d "random_value")).Nodup := keys_dictErase_nodup _ _ h
  have nd2 : (keys (stage1 d)).Nodup := keys_drop_nodup _ nd1
  have nd3 : (keys (stage2 d)).Nodup := keys_dictErase_nodup _ _ nd2
  have nd4 : (keys (stage3 d)).Nodup := keys_eraseMany_nodup _ _ nd3
  have nd5 : (keys (dictSet (stage3 d) "x_size" xv)).Nodup := keys_dictSet_nodup _ _ _ nd4
  have nd6 : (keys (stage4 d xv)).Nodup := keys_eraseMany_nodup _ _ nd5
  have nd7 : (keys (dictSet (stage4 d xv) "x_steps" sv)).Nodup :=
    keys_dictSet_nodup _ _ _ nd6
  have nd8 : (keys (stage5 d xv sv)).Nodup := keys_eraseMany_nodup _ _ nd7
  have nd9 : (keys (dictSet (stage5 d xv sv) "y_size" yv)).Nodup :=
    keys_dictSet_nodup _ _ _ nd8
  rw [show finalOut d xv sv yv tv = dictSet (stage6 d xv sv yv) "y_steps" tv from rfl,
    mem_keys_dictSet,
    show stage6 d xv sv yv = eraseMany (dictSet (stage5 d xv sv) "y_size" yv)
      ["y_step_0", "y_step_1", "y_step_2"] from rfl,
    mem_keys_eraseMany _ _ _ nd9,
    mem_keys_dictSet,
    show stage5 d xv sv = eraseMany (dictSet (stage4 d xv) "x_steps" sv)
      ["y_k0", "y_k1", "y_k2"] from rfl,
    mem_keys_eraseMany _ _ _ nd7,
    mem_keys_dictSet,
    show stage4 d xv = eraseMany (dictSet (stage3 d) "x_size" xv)
      ["x_step_0", "x_step_1", "x_step_2"] from rfl,
    mem_keys_eraseMany _ _ _ nd5,
    mem_keys_dictSet,
    show stage3 d = eraseMany (stage2 d) ["k0", "k1", "k2"] from rfl,
    mem_keys_eraseMany _ _ _ nd3,
    show stage2 d = dictErase (stage1 d) "dim" from rfl,
    mem_keys_dictErase _ _ _ nd2,
    show stage1 d = dropIntermediate (dictErase d "random_value") from rfl,
    mem_keys_drop,
    mem_keys_dictErase _ _ _ h]
  by_cases e1 : k = "x_size"
  · subst e1
    simp [requiredKeys]
  by_cases e2 : k = "x_steps"
  · subst e2
    simp [requiredKeys]
  by_cases e3 : k = "y_size"
  · subst e3
    simp [requiredKeys]
  by_cases e4 : k = "y_steps"
  · subst e4
    simp [requiredKeys]
  simp only [requiredKeys, List.mem_cons, List.not_mem_nil, e1, e2, e3, e4,
    false_or, or_false]
  simp only [not_or]
  constructor
  · rintro ⟨⟨⟨⟨⟨hdim, ⟨hrv, hmem⟩, hint⟩, hk0, hk1, hk2⟩, hs0, hs1, hs2⟩,
      hb0, hb1, hb2⟩, ht0, ht1, ht2⟩
    exact ⟨hmem, ⟨hrv, hdim, hk0, hk1, hk2, hs0, hs1, hs2, hb0, hb1, hb2,
      ht0, ht1, ht2⟩, hint⟩
  · rintro ⟨hmem, ⟨hrv, hdim, hk0, hk1, hk2, hs0, hs1, hs2, hb0, hb1, hb2,
      ht0, ht1, ht2⟩, hint⟩
    exact ⟨⟨⟨⟨⟨hdim, ⟨hrv, hmem⟩, hint⟩, hk0, hk1, hk2⟩, hs0, hs1, hs2⟩,
      hb0, hb1, hb2⟩, ht0, ht1, ht2⟩

theorem dictPop_sound (X : Dict) (k : String) (p : PyVal × Dict)
    (h : dictPop X k = some p) : k ∈ keys X ∧ p.2 = dictErase X k := by
  cases hf : dictFind X k with
  | none =>
    simp only [dictPop, hf] at h
    exact Option.noConfusion h
  | some v =>
    simp only [dictPop, hf] at h
    have h' := Option.some.inj h
    refine ⟨(mem_keys_iff_find X k).2 ⟨v, hf⟩, ?_⟩
    rw [← h']

theorem popMany_sound (ks : List String) (X : Dict) (p : List PyVal × Dict)
    (h : popMany X ks = some p) :
    (∀ k ∈ ks, k ∈ keys X) ∧ p.2 = eraseMany X ks := by
  induction ks generalizing X p with
  | nil =>
    simp only [popMany] at h
    have h' := Option.some.inj h
    constructor
    · intro k hk
      exact absurd hk (List.not_mem_nil k)
    · rw [← h']
      rfl
  | cons a ks ih =>
    simp only [popMany, Option.bind_eq_some] at h
    obtain ⟨q, hq, h⟩ := h
    obtain ⟨r, hr, h⟩ := h
    obtain ⟨hamem, hq2⟩ := dictPop_sound _ _ _ hq
    rw [hq2] at hr
    obtain ⟨hall, hr2⟩ := ih _ _ hr
    have h' := Option.some.inj h
    constructor
    · intro k hk
      rcases List.mem_cons.1 hk with he | hmem
      · rw [he]
        exact hamem
      · exact keys_erase_subset _ _ _ (hall k hmem)
    · rw [← h']
      exact hr2

theorem required_of_success (d : Dict) (out : Dict)
    (h : structure_params d = some out) : ∀ k ∈ requiredKeys, k ∈ keys d := by
  simp only [structure_params, Option.bind_eq_some] at h
  obtain ⟨pr, hpr, h⟩ := h
  obtain ⟨pd, hpd, h⟩ := h
  obtain ⟨dim, hdimInt, h⟩ := h
  obtain ⟨pk, hpk, h⟩ := h
  obtain ⟨psx, hpsx, h⟩ := h
  obtain ⟨pyk, hpyk, h⟩ := h
  obtain ⟨pst, hpst, _⟩ := h
  obtain ⟨hrvmem, hpr2⟩ := dictPop_sound _ _ _ hpr
  obtain ⟨hdimmem, hpd2⟩ := dictPop_sound _ _ _ hpd
  obtain ⟨hkall, hpk2⟩ := popMany_sound _ _ _ hpk
  obtain ⟨hsall, hpsx2⟩ := popMany_sound _ _ _ hpsx
  obtain ⟨hball, hpyk2⟩ := popMany_sound _ _ _ hpyk
  obtain ⟨htall, hpst2⟩ := popMany_sound _ _ _ hpst
  have hdim_d : "dim" ∈ keys d := by
    have h1 := keys_drop_subset _ _ hdimmem
    rw [hpr2] at h1
    exact keys_erase_subset _ _ _ h1
  have toD2 : ∀ k, k ∈ keys pd.2 → k ∈ keys d := by
    intro k hk
    rw [hpd2] at hk
    have h2 := keys_erase_subset _ _ _ hk
    have h3 := keys_drop_subset _ _ h2
    rw [hpr2] at h3
    exact keys_erase_subset _ _ _ h3
  have toD3 : ∀ k, k ∈ keys pk.2 → k ∈ keys d := by
    intro k hk
    rw [hpk2] at hk
    exact toD2 _ (keys_eraseMany_subset _ _ _ hk)
  have toD4 : ∀ k, k ≠ "x_size" → k ∈ keys psx.2 → k ∈ keys d := by
    intro k hne hk
    rw [hpsx2] at hk
    have h2 := keys_eraseMany_subset _ _ _ hk
    exact toD3 _ (((mem_keys_dictSet _ _ _ _).1 h2).resolve_left hne)
  have toD5 : ∀ k, k ≠ "x_size" → k ≠ "x_steps" → k ∈ keys pyk.2 → k ∈ keys d := by
    intro k hne1 hne2 hk
    rw [hpyk2] at hk
    have h2 := keys_eraseMany_subset _ _ _ hk
    exact toD4 _ hne1 (((mem_keys_dictSet _ _ _ _).1 h2).resolve_left hne2)
  intro k hk
  simp only [requiredKeys, List.mem_cons, List.not_mem_nil, or_false] at hk
  rcases hk with he | he | he | he | he | he | he | he | he | he | he | he | he | he
  · rw [he]
    exact hrvmem
  · rw [he]
    exact hdim_d
  · rw [he]
    exact toD2 _ (hkall _ (by simp))
  · rw [he]
    exact toD2 _ (hkall _ (by simp))
  · rw [he]
    exact toD2 _ (hkall _ (by simp))
  · rw [he]
    exact toD3 _ (((mem_keys_dictSet _ _ _ _).1 (hsall _ (by simp))).resolve_left
      (by decide))
  · rw [he]
    exact toD3 _ (((mem_keys_dictSet _ _ _ _).1 (hsall _ (by simp))).resolve_left
      (by decide))
  · rw [he]
    exact toD3 _ (((mem_keys_dictSet _ _ _ _).1 (hsall _ (by simp))).resolve_left
      (by decide))
  · rw [he]
    exact toD4 _ (by decide) (((mem_keys_dictSet _ _ _ _).1 (hball _ (by simp))).resolve_left
      (by decide))
  · rw [he]
    exact toD4 _ (by decide) (((mem_keys_dictSet _ _ _ _).1 (hball _ (by simp))).resolve_left
      (by decide))
  · rw [he]
    exact toD4 _ (by decide) (((mem_keys_dictSet _ _ _ _).1 (hball _ (by simp))).resolve_left
      (by decide))
  · rw [he]
    exact toD5 _ (by decide) (by decide)
      (((mem_keys_dictSet _ _ _ _).1 (htall _ (by simp))).resolve_left (by decide))
  · rw [he]
    exact toD5 _ (by decide) (by decide)
      (((mem_keys_dictSet _ _ _ _).1 (htall _ (by simp))).resolve_left (by decide))
  · rw [he]
    exact toD5 _ (by decide) (by decide)
      (((mem_keys_dictSet _ _ _ _).1 (htall _ (by simp))).resolve_left (by decide))

theorem structure_params_go_spec (a w : Dict) :
    structure_params_go ⟨a, w⟩ = (structure_params w, a) := by
  simp only [structure_params_go, structure_params, statePop, statePopMany,
    stateSet, stateDropIntermediate]
  cases h1 : dictPop w "random_value" with
  | none => simp [h1]
  | some pr =>
    simp only [h1, Option.map_some', Option.some_bind]
    cases h2 : dictPop (dropIntermediate pr.2) "dim" with
    | none => simp [h2]
    | some pd =>
      simp only [h2, Option.map_some', Option.some_bind]
      cases h3 : asInt pd.1 with
      | none => simp [h3]
      | some dim =>
        simp only [h3, Option.some_bind]
        cases h4 : popMany pd.2 ["k0", "k1", "k2"] with
        | none => simp [h4]
        | some pk =>
          simp only [h4, Option.map_some', Option.some_bind]
          cases h5 : popMany (dictSet pk.2 "x_size" (.tup (pySliceTo pk.1 dim)))
              ["x_step_0", "x_step_1", "x_step_2"] with
          | none => simp [h5]
          | some psx =>
            simp only [h5, Option.map_some', Option.some_bind]
            cases h6 : popMany (dictSet psx.2 "x_steps" (.tup (pySliceTo psx.1 dim)))
                ["y_k0", "y_k1", "y_k2"] with
            | none => simp [h6]
            | some pyk =>
              simp only [h6, Option.map_some', Option.some_bind]
              cases h7 : popMany (dictSet pyk.2 "y_size" (.tup (pySliceTo pyk.1 dim)))
                  ["y_step_0", "y_step_1", "y_step_2"] with
              | none => simp [h7]
              | some pst =>
                simp only [h7, Option.map_some', Option.some_bind]

theorem mem_range_pow (L sz : Nat) (hL : 3 ≤ L) :
    sz ∈ (List.range' 3 (L + 1 - 3)).map (fun i => 2 ^ i) ↔
      (8 ≤ sz ∧ sz ≤ 2 ^ L ∧ ∃ j, sz = 2 ^ j) := by
  simp only [List.mem_map, List.mem_range'_1]
  constructor
  · rintro ⟨j, ⟨h3, hlt⟩, rfl⟩
    refine ⟨?_, ?_, j, rfl⟩
    · calc (8 : Nat) = 2 ^ 3 := by norm_num
        _ ≤ 2 ^ j := Nat.pow_le_pow_right (by norm_num) h3
    · exact Nat.pow_le_pow_right (by norm_num) (by omega)
  · rintro ⟨h8, hle, j, rfl⟩
    have hj3 : 3 ≤ j := by
      have := (Nat.pow_le_pow_iff_right (by norm_num : 1 < 2)).1
        (show 2 ^ 3 ≤ 2 ^ j by calc (2:Nat) ^ 3 = 8 := by norm_num
          _ ≤ 2 ^ j := h8)
      exact this
    have hjL : j ≤ L :=
      (Nat.pow_le_pow_iff_right (by norm_num : 1 < 2)).1 hle
    exact ⟨j, ⟨hj3, by omega⟩, rfl⟩

theorem mem_pow_two_sizes (scale : Scale) (sz : Nat) :
    sz ∈ POW_TWO_SIZES scale ↔
      (MIN_DIM_SIZE ≤ sz ∧ sz ≤ MAX_DIM_SIZE scale ∧ ∃ j, sz = 2 ^ j) := by
  cases scale
  · have core := mem_range_pow 7 sz (by norm_num)
    simpa [POW_TWO_SIZES, MIN_DIM_SIZE, MAX_DIM_SIZE,
      show floorLog2 8 = 3 from by decide, show floorLog2 128 = 7 from by decide,
      show (2:Nat) ^ 7 = 128 from by norm_num] using core
  · have core := mem_range_pow 10 sz (by norm_num)
    simpa [POW_TWO_SIZES, MIN_DIM_SIZE, MAX_DIM_SIZE,
      show floorLog2 8 = 3 from by decide, show floorLog2 1024 = 10 from by decide,
      show (2:Nat) ^ 10 = 1024 from by norm_num] using core
  · have core := mem_range_pow 24 sz (by norm_num)
    simpa [POW_TWO_SIZES, MIN_DIM_SIZE, MAX_DIM_SIZE,
      show floorLog2 (16 * 1024 ^ 2) = 24 from by decide,
      show floorLog2 8 = 3 from by decide,
      show (2:Nat) ^ 24 = 16 * 1024 ^ 2 from by norm_num] using core

/-- C2 (counterexample): at scale `large` the declared tensor requests carry
these element bounds: `x` has `[4096, 32 * 1024 ^ 2]` but the request for `y`
passes no `max_elements` (and no `min_elements`) at all, contradicting the
claim that `y` specifies the same maximum total element count as `x`. -/
theorem y_tensor_no_max_elements :
    (binaryOpFuzzer_tensors Scale.large "torch.float32" false false).map
      (fun t => (t.name, t.min_elements, t.max_elements)) =
      [("x", some 4096, some 33554432), ("y", none, none)] := rfl

/-- C2 (amended): the `x` request specifies element-count bounds
`[MIN_ELEMENTS[scale], 32 * 1024 ^ 2]` (`MIN_ELEMENTS` = 0/128/4096 for
small/medium/large) and a 2 GiB allocation cap; the `y` request specifies
no element-count bounds at all — neither a lower nor an upper one — and
only the same 2 GiB allocation cap. -/
theorem tensor_requests_bounds (scale : Scale) (dtype : String)
    (cuda rg : Bool) :
    ∃ x y, binaryOpFuzzer_tensors scale dtype cuda rg = [x, y] ∧
      x.name = "x" ∧ x.min_elements = some (MIN_ELEMENTS scale) ∧
      x.max_elements = some (32 * 1024 ^ 2) ∧
      x.max_allocation_bytes = some (2 * 1024 ^ 3) ∧
      y.name = "y" ∧ y.min_elements = none ∧ y.max_elements = none ∧
      y.max_allocation_bytes = some (2 * 1024 ^ 3) ∧
      MIN_ELEMENTS Scale.small = 0 ∧ MIN_ELEMENTS Scale.medium = 128 ∧
      MIN_ELEMENTS Scale.large = 4096 :=
  ⟨_, _, rfl, rfl, rfl, rfl, rfl, rfl, rfl, rfl, rfl, rfl, rfl, rfl⟩

/-- C8: for every scale and axis index `i < 3`, the declared parameter
`k_pow2_i` is a weighted discrete distribution whose outcomes are exactly
the powers of two in `[MIN_DIM_SIZE, MAX_DIM_SIZE[scale]]` inclusive (with
`MIN_DIM_SIZE = 8` and `MAX_DIM_SIZE` = 128 / 1024 / 16 * 1024 ^ 2), each
listed once and each carrying the equal weight `1 / (number of such
powers)`. -/
theorem k_pow2_uniform_powers (scale : Scale) (i : Nat) (hi : i < 3) :
    ∃ w : List (Outcome × ℚ),
      (binaryOpFuzzer_parameters scale).find? (fun p => p.name == kPow2Name i) =
        some ⟨kPow2Name i, DistSpec.discrete w, false⟩ ∧
      w.map Prod.fst = (POW_TWO_SIZES scale).map Outcome.lit ∧
      (w.map Prod.fst).Nodup ∧
      (∀ p ∈ w, p.2 = 1 / (w.length : ℚ)) ∧
      (∀ sz : Nat, Outcome.lit sz ∈ w.map Prod.fst ↔
        (MIN_DIM_SIZE ≤ sz ∧ sz ≤ MAX_DIM_SIZE scale ∧ ∃ j, sz = 2 ^ j)) ∧
      MIN_DIM_SIZE = 8 ∧
      MAX_DIM_SIZE Scale.small = 128 ∧ MAX_DIM_SIZE Scale.medium = 1024 ∧
      MAX_DIM_SIZE Scale.large = 16 * 1024 ^ 2 := by
  have hmap : ((POW_TWO_SIZES scale).map
      (fun size => ((Outcome.lit size : Outcome),
        1 / ((POW_TWO_SIZES scale).length : ℚ)))).map Prod.fst =
      (POW_TWO_SIZES scale).map Outcome.lit := by
    simp [List.map_map, Function.comp]
  refine ⟨(POW_TWO_SIZES scale).map
      (fun size => ((Outcome.lit size : Outcome),
        1 / ((POW_TWO_SIZES scale).length : ℚ))), ?_, hmap, ?_, ?_, ?_,
      rfl, rfl, rfl, rfl⟩
  · have h3 : i = 0 ∨ i = 1 ∨ i = 2 := by omega
    rcases h3 with h | h | h <;> subst h <;> cases scale <;> rfl
  · rw [hmap]
    apply List.Nodup.map
    · intro a b hab
      exact Outcome.lit.inj hab
    · cases scale <;> decide
  · intro p hp
    rcases List.mem_map.1 hp with ⟨sz, hsz, rfl⟩
    rw [List.length_map]
  · intro sz
    rw [hmap]
    constructor
    · intro hmem
      rcases List.mem_map.1 hmem with ⟨sz', hsz', he⟩
      have he' : sz' = sz := Outcome.lit.inj he
      rw [he'] at hsz'
      exact (mem_pow_two_sizes scale sz).1 hsz'
    · intro hb
      exact List.mem_map_of_mem _ ((mem_pow_two_sizes scale sz).2 hb)

/-- C8 (witness): the characterization instantiated at scale `small`,
axis index 0. -/
theorem k_pow2_uniform_powers_witness :
    (0 < 3) ∧
    ∃ w : List (Outcome × ℚ),
      (binaryOpFuzzer_parameters Scale.small).find?
          (fun p => p.name == kPow2Name 0) =
        some ⟨kPow2Name 0, DistSpec.discrete w, false⟩ ∧
      w.map Prod.fst = (POW_TWO_SIZES Scale.small).map Outcome.lit ∧
      (w.map Prod.fst).Nodup ∧
      (∀ p ∈ w, p.2 = 1 / (w.length : ℚ)) ∧
      (∀ sz : Nat, Outcome.lit sz ∈ w.map Prod.fst ↔
        (MIN_DIM_SIZE ≤ sz ∧ sz ≤ MAX_DIM_SIZE Scale.small ∧ ∃ j, sz = 2 ^ j)) ∧
      MIN_DIM_SIZE = 8 ∧
      MAX_DIM_SIZE Scale.small = 128 ∧ MAX_DIM_SIZE Scale.medium = 1024 ∧
      MAX_DIM_SIZE Scale.large = 16 * 1024 ^ 2 :=
  ⟨by norm_num, k_pow2_uniform_powers Scale.small 0 (by norm_num)⟩

/-- C9: for every axis index `i < 3` (and every scale), the declared
parameter `y_k_i` is strict and is a weighted discrete distribution with
exactly two outcomes: an alias of `k_i` with weight `0.8` and the literal
`1` with weight `0.2`. -/
theorem y_k_mixture (i : Nat) (hi : i < 3) :
    ∀ scale : Scale,
      (binaryOpFuzzer_parameters scale).find? (fun p => p.name == ykName i) =
        some ⟨ykName i, DistSpec.discrete
          [(.alias (kName i), 4/5), (.lit 1, 1/5)], true⟩ := by
  intro scale
  have h3 : i = 0 ∨ i = 1 ∨ i = 2 := by omega
  rcases h3 with h | h | h <;> subst h <;> cases scale <;> rfl

/-- C9 (witness): the mixture instantiated at axis index 0. -/
theorem y_k_mixture_witness :
    (0 < 3) ∧
    ∀ scale : Scale,
      (binaryOpFuzzer_parameters scale).find? (fun p => p.name == ykName 0) =
        some ⟨ykName 0, DistSpec.discrete
          [(.alias (kName 0), 4/5), (.lit 1, 1/5)], true⟩ :=
  ⟨by norm_num, y_k_mixture 0 (by norm_num)⟩

theorem keys_finalOut_nodup (d : Dict) (h : (keys d).Nodup) (xv sv yv tv : PyVal) :
    (keys (finalOut d xv sv yv tv)).Nodup := by
  apply keys_dictSet_nodup
  apply keys_eraseMany_nodup
  apply keys_dictSet_nodup
  apply keys_eraseMany_nodup
  apply keys_dictSet_nodup
  apply keys_eraseMany_nodup
  apply keys_dictSet_nodup
  apply keys_eraseMany_nodup
  apply keys_dictErase_nodup
  apply keys_drop_nodup
  apply keys_dictErase_nodup
  exact h

/-- C1 (counterexample): a dictionary holding every declared parameter name
plus the foreign key `"foo"` satisfies the claim's hypothesis, yet
`structure_params` succeeds and leaves `"foo"` in its output, so the output
keys are not exactly the four derived ones. -/
theorem structure_params_foreign_key_leak :
    (∀ k ∈ declaredNames, k ∈ keys c1Input) ∧
    (structure_params c1Input).isSome = true ∧
    "foo" ∈ outKeys c1Input ∧
    outKeys c1Input ≠ ["x_size", "x_steps", "y_size", "y_steps"] := by decide

/-- C1 (amended): for every Raw Sample whose key set is exactly the declared
parameter names (a duplicate-free mapping, with an integer `dim` value), the
mapping returned by `structure_params` has exactly the four keys
`x_size, x_steps, y_size, y_steps` and no other key from the input. -/
theorem structure_params_exact_keys (d : Dict) (n : Int)
    (hnd : (keys d).Nodup)
    (hsub : ∀ k ∈ keys d, k ∈ declaredNames)
    (hsup : ∀ k ∈ declaredNames, k ∈ keys d)
    (hdim : dictFind d "dim" = some (.int n)) :
    ∃ out, structure_params d = some out ∧ (keys out).Nodup ∧
      ∀ k, k ∈ keys out ↔
        k ∈ (["x_size", "x_steps", "y_size", "y_steps"] : List String) := by
  obtain ⟨rv, hrv⟩ := (mem_keys_iff_find d "random_value").1 (hsup _ (by decide))
  obtain ⟨a0, ha0⟩ := (mem_keys_iff_find d "k0").1 (hsup _ (by decide))
  obtain ⟨a1, ha1⟩ := (mem_keys_iff_find d "k1").1 (hsup _ (by decide))
  obtain ⟨a2, ha2⟩ := (mem_keys_iff_find d "k2").1 (hsup _ (by decide))
  obtain ⟨s0, hs0⟩ := (mem_keys_iff_find d "x_step_0").1 (hsup _ (by decide))
  obtain ⟨s1, hs1⟩ := (mem_keys_iff_find d "x_step_1").1 (hsup _ (by decide))
  obtain ⟨s2, hs2⟩ := (mem_keys_iff_find d "x_step_2").1 (hsup _ (by decide))
  obtain ⟨b0, hb0⟩ := (mem_keys_iff_find d "y_k0").1 (hsup _ (by decide))
  obtain ⟨b1, hb1⟩ := (mem_keys_iff_find d "y_k1").1 (hsup _ (by decide))
  obtain ⟨b2, hb2⟩ := (mem_keys_iff_find d "y_k2").1 (hsup _ (by decide))
  obtain ⟨t0, ht0⟩ := (mem_keys_iff_find d "y_step_0").1 (hsup _ (by decide))
  obtain ⟨t1, ht1⟩ := (mem_keys_iff_find d "y_step_1").1 (hsup _ (by decide))
  obtain ⟨t2, ht2⟩ := (mem_keys_iff_find d "y_step_2").1 (hsup _ (by decide))
  refine ⟨_, structure_params_exec d rv n a0 a1 a2 s0 s1 s2 b0 b1 b2 t0 t1 t2
      hrv hdim ha0 ha1 ha2 hs0 hs1 hs2 hb0 hb1 hb2 ht0 ht1 ht2,
    keys_finalOut_nodup d hnd _ _ _ _, ?_⟩
  intro k
  rw [mem_keys_finalOut d hnd]
  constructor
  · rintro (h4 | ⟨hmem, hreq, hint⟩)
    · exact h4
    · exfalso
      have hd := hsub _ hmem
      simp only [declaredNames, List.mem_cons, List.not_mem_nil, or_false] at hd
      rcases hd with he | he | he | he | he | he | he | he | he | he | he | he |
        he | he | he | he | he | he | he | he <;>
        rw [he] at hreq hint <;>
        first
          | exact hreq (by decide)
          | exact absurd hint (by decide)
  · exact Or.inl

/-- C1 (witness): the amended statement evaluated on a concrete raw sample. -/
theorem structure_params_exact_keys_witness :
    ∃ out, structure_params declaredSample = some out ∧ (keys out).Nodup ∧
      ∀ k, k ∈ keys out ↔
        k ∈ (["x_size", "x_steps", "y_size", "y_steps"] : List String) :=
  structure_params_exact_keys declaredSample 2 (by decide) (by decide)
    (by decide) rfl

/-- C3: for every Raw Sample holding the required keys with
`dim ∈ {1, 2, 3}`, `structure_params` builds `x_size` from the first `dim`
of `(k0, k1, k2)` in axis order, `x_steps` from the first `dim` of
`(x_step_0, x_step_1, x_step_2)`, and `y_size` / `y_steps` identically from
the `y_k*` / `y_step_*` families, all four sequences having length `dim`. -/
theorem structure_params_truncation (d : Dict) (rv : PyVal) (n : Int)
    (a0 a1 a2 s0 s1 s2 b0 b1 b2 t0 t1 t2 : PyVal)
    (hn : n = 1 ∨ n = 2 ∨ n = 3)
    (hrv : dictFind d "random_value" = some rv)
    (hdim : dictFind d "dim" = some (.int n))
    (ha0 : dictFind d "k0" = some a0)
    (ha1 : dictFind d "k1" = some a1)
    (ha2 : dictFind d "k2" = some a2)
    (hs0 : dictFind d "x_step_0" = some s0)
    (hs1 : dictFind d "x_step_1" = some s1)
    (hs2 : dictFind d "x_step_2" = some s2)
    (hb0 : dictFind d "y_k0" = some b0)
    (hb1 : dictFind d "y_k1" = some b1)
    (hb2 : dictFind d "y_k2" = some b2)
    (ht0 : dictFind d "y_step_0" = some t0)
    (ht1 : dictFind d "y_step_1" = some t1)
    (ht2 : dictFind d "y_step_2" = some t2) :
    ∃ out, structure_params d = some out ∧
      dictFind out "x_size" = some (.tup (List.take n.toNat [a0, a1, a2])) ∧
      dictFind out "x_steps" = some (.tup (List.take n.toNat [s0, s1, s2])) ∧
      dictFind out "y_size" = some (.tup (List.take n.toNat [b0, b1, b2])) ∧
      dictFind out "y_steps" = some (.tup (List.take n.toNat [t0, t1, t2])) ∧
      (List.take n.toNat [a0, a1, a2]).length = n.toNat ∧
      (List.take n.toNat [s0, s1, s2]).length = n.toNat ∧
      (List.take n.toNat [b0, b1, b2]).length = n.toNat ∧
      (List.take n.toNat [t0, t1, t2]).length = n.toNat := by
  have hpos : (0 : Int) ≤ n := by rcases hn with h | h | h <;> omega
  have hslice : ∀ l : List PyVal, pySliceTo l n = l.take n.toNat := by
    intro l
    simp [pySliceTo, hpos]
  have hlen : ∀ x y z : PyVal, (List.take n.toNat [x, y, z]).length = n.toNat := by
    intro x y z
    rcases hn with h | h | h <;> subst h <;> rfl
  have hexec := structure_params_exec d rv n a0 a1 a2 s0 s1 s2 b0 b1 b2 t0 t1 t2
    hrv hdim ha0 ha1 ha2 hs0 hs1 hs2 hb0 hb1 hb2 ht0 ht1 ht2
  rw [hslice, hslice, hslice, hslice] at hexec
  exact ⟨_, hexec, dictFind_finalOut_x_size _ _ _ _ _,
    dictFind_finalOut_x_steps _ _ _ _ _, dictFind_finalOut_y_size _ _ _ _ _,
    dictFind_finalOut_y_steps _ _ _ _ _, hlen _ _ _, hlen _ _ _, hlen _ _ _,
    hlen _ _ _⟩

/-- C3 (witness): evaluated on a concrete raw sample with `dim = 2`. -/
theorem structure_params_truncation_witness :
    ∃ out, structure_params declaredSample = some out ∧
      dictFind out "x_size" = some (.tup [.int 10, .int 32]) ∧
      dictFind out "x_steps" = some (.tup [.int 1, .int 1]) ∧
      dictFind out "y_size" = some (.tup [.int 10, .int 1]) ∧
      dictFind out "y_steps" = some (.tup [.int 2, .int 1]) := by
  obtain ⟨out, h1, h2, h3, h4, h5, _⟩ :=
    structure_params_truncation declaredSample (.int 12345) 2 (.int 10)
      (.int 32) (.int 12) (.int 1) (.int 1) (.int 4) (.int 10) (.int 1)
      (.int 12) (.int 2) (.int 1) (.int 1) (by omega) rfl rfl rfl rfl rfl rfl
      rfl rfl rfl rfl rfl rfl rfl rfl
  exact ⟨out, h1, h2, h3, h4, h5⟩

/-- C4: for every Raw Sample holding the required keys (a duplicate-free
mapping), the output of `structure_params` never contains the key
`random_value` nor any key starting with `k_any` or `k_pow2`. -/
theorem structure_params_drops_aux (d : Dict) (rv : PyVal) (n : Int)
    (a0 a1 a2 s0 s1 s2 b0 b1 b2 t0 t1 t2 : PyVal)
    (hnd : (keys d).Nodup)
    (hrv : dictFind d "random_value" = some rv)
    (hdim : dictFind d "dim" = some (.int n))
    (ha0 : dictFind d "k0" = some a0)
    (ha1 : dictFind d "k1" = some a1)
    (ha2 : dictFind d "k2" = some a2)
    (hs0 : dictFind d "x_step_0" = some s0)
    (hs1 : dictFind d "x_step_1" = some s1)
    (hs2 : dictFind d "x_step_2" = some s2)
    (hb0 : dictFind d "y_k0" = some b0)
    (hb1 : dictFind d "y_k1" = some b1)
    (hb2 : dictFind d "y_k2" = some b2)
    (ht0 : dictFind d "y_step_0" = some t0)
    (ht1 : dictFind d "y_step_1" = some t1)
    (ht2 : dictFind d "y_step_2" = some t2) :
    ∃ out, structure_params d = some out ∧
      "random_value" ∉ keys out ∧
      ∀ k ∈ keys out, strLeads "k_any".data k.data = false ∧
        strLeads "k_pow2".data k.data = false := by
  refine ⟨_, structure_params_exec d rv n a0 a1 a2 s0 s1 s2 b0 b1 b2 t0 t1 t2
    hrv hdim ha0 ha1 ha2 hs0 hs1 hs2 hb0 hb1 hb2 ht0 ht1 ht2, ?_, ?_⟩
  · intro hmem
    rcases (mem_keys_finalOut d hnd _ _ _ _ "random_value").1 hmem with
      h4 | ⟨_, hreq, _⟩
    · exact absurd h4 (by decide)
    · exact hreq (by decide)
  · intro k hk
    rcases (mem_keys_finalOut d hnd _ _ _ _ k).1 hk with h4 | ⟨_, _, hint⟩
    · simp only [List.mem_cons, List.not_mem_nil, or_false] at h4
      rcases h4 with he | he | he | he <;> rw [he] <;> exact ⟨by decide, by decide⟩
    · have h2 : (strLeads "k_any".data k.data ||
          strLeads "k_pow2".data k.data) = false := hint
      exact ⟨(Bool.or_eq_false_iff.1 h2).1, (Bool.or_eq_false_iff.1 h2).2⟩

/-- C4 (witness): evaluated on a concrete raw sample. -/
theorem structure_params_drops_aux_witness :
    ∃ out, structure_params declaredSample = some out ∧
      "random_value" ∉ keys out ∧
      ∀ k ∈ keys out, strLeads "k_any".data k.data = false ∧
        strLeads "k_pow2".data k.data = false :=
  structure_params_drops_aux declaredSample (.int 12345) 2 (.int 10) (.int 32)
    (.int 12) (.int 1) (.int 1) (.int 4) (.int 10) (.int 1) (.int 12) (.int 2)
    (.int 1) (.int 1) (by decide) rfl rfl rfl rfl rfl rfl rfl rfl rfl rfl rfl
    rfl rfl rfl

/-- C5: if any required key (`random_value`, `dim`, `k0..k2`,
`x_step_0..2`, `y_k0..y_k2`, `y_step_0..2`) is absent from the input
mapping, `structure_params` raises (returns `none`) rather than
default-filling, and no partial structured case is returned. -/
theorem structure_params_missing_key_fails (d : Dict) (k : String)
    (hreq : k ∈ requiredKeys) (habs : k ∉ keys d) :
    structure_params d = none := by
  cases h : structure_params d with
  | none => rfl
  | some out => exact absurd (required_of_success d out h k hreq) habs

/-- C5 (witness): the empty mapping is missing `random_value` and is
rejected. -/
theorem structure_params_missing_key_fails_witness :
    ("random_value" ∈ requiredKeys) ∧ ("random_value" ∉ keys ([] : Dict)) ∧
    structure_params ([] : Dict) = none :=
  ⟨by decide, by decide,
    structure_params_missing_key_fails [] "random_value" (by decide) (by decide)⟩

/-- C6: `structure_params` is deterministic — two calls on the same input
mapping yield identical outputs; it is a stateless pure function of its
argument. -/
theorem structure_params_deterministic (d1 d2 : Dict) (h : d1 = d2) :
    structure_params d1 = structure_params d2 := by rw [h]

/-- C6 (witness): determinism evaluated on a concrete raw sample. -/
theorem structure_params_deterministic_witness :
    declaredSample = declaredSample ∧
    structure_params declaredSample = structure_params declaredSample :=
  ⟨rfl, structure_params_deterministic declaredSample declaredSample rfl⟩

/-- C7: `structure_params` is side-effect-free with respect to its input:
the caller's dictionary after the call is exactly the dictionary passed in
(only the local copy made by `params.copy()` is mutated), and the value
returned is the usual one. -/
theorem structure_params_input_preserved (d : Dict) :
    (structure_params_run d).2 = d ∧
    (structure_params_run d).1 = structure_params d := by
  have h := structure_params_go_spec d d
  rw [show structure_params_run d = structure_params_go ⟨d, d⟩ from rfl, h]
  exact ⟨rfl, rfl⟩

/-- C10: `structure_params` does not validate `dim` — when all required
keys are present and `dim` is any integer, the call succeeds (no error);
for `dim > 3` the four output sequences are the full 3-element tuples
(truncation clamps at 3) and for `dim = 0` they are all empty. -/
theorem structure_params_dim_clamp (d : Dict) (rv : PyVal) (n : Int)
    (a0 a1 a2 s0 s1 s2 b0 b1 b2 t0 t1 t2 : PyVal)
    (hrv : dictFind d "random_value" = some rv)
    (hdim : dictFind d "dim" = some (.int n))
    (ha0 : dictFind d "k0" = some a0)
    (ha1 : dictFind d "k1" = some a1)
    (ha2 : dictFind d "k2" = some a2)
    (hs0 : dictFind d "x_step_0" = some s0)
    (hs1 : dictFind d "x_step_1" = some s1)
    (hs2 : dictFind d "x_step_2" = some s2)
    (hb0 : dictFind d "y_k0" = some b0)
    (hb1 : dictFind d "y_k1" = some b1)
    (hb2 : dictFind d "y_k2" = some b2)
    (ht0 : dictFind d "y_step_0" = some t0)
    (ht1 : dictFind d "y_step_1" = some t1)
    (ht2 : dictFind d "y_step_2" = some t2) :
    ∃ out, structure_params d = some out ∧
      (3 < n →
        dictFind out "x_size" = some (.tup [a0, a1, a2]) ∧
        dictFind out "x_steps" = some (.tup [s0, s1, s2]) ∧
        dictFind out "y_size" = some (.tup [b0, b1, b2]) ∧
        dictFind out "y_steps" = some (.tup [t0, t1, t2])) ∧
      (n = 0 →
        dictFind out "x_size" = some (.tup []) ∧
        dictFind out "x_steps" = some (.tup []) ∧
        dictFind out "y_size" = some (.tup []) ∧
        dictFind out "y_steps" = some (.tup [])) := by
  have hexec := structure_params_exec d rv n a0 a1 a2 s0 s1 s2 b0 b1 b2 t0 t1 t2
    hrv hdim ha0 ha1 ha2 hs0 hs1 hs2 hb0 hb1 hb2 ht0 ht1 ht2
  refine ⟨_, hexec, fun h3 => ?_, fun h0 => ?_⟩
  · have hs : ∀ x y z : PyVal, pySliceTo [x, y, z] n = [x, y, z] := by
      intro x y z
      have h1 : (0 : Int) ≤ n := by omega
      have h2 : (3 : Nat) ≤ n.toNat := by omega
      simp only [pySliceTo, if_pos h1]
      exact List.take_of_length_le (by simpa using h2)
    exact ⟨by rw [hs a0 a1 a2]; exact dictFind_finalOut_x_size _ _ _ _ _,
      by rw [hs s0 s1 s2]; exact dictFind_finalOut_x_steps _ _ _ _ _,
      by rw [hs b0 b1 b2]; exact dictFind_finalOut_y_size _ _ _ _ _,
      by rw [hs t0 t1 t2]; exact dictFind_finalOut_y_steps _ _ _ _ _⟩
  · subst h0
    exact ⟨dictFind_finalOut_x_size _ _ _ _ _,
      dictFind_finalOut_x_steps _ _ _ _ _,
      dictFind_finalOut_y_size _ _ _ _ _,
      dictFind_finalOut_y_steps _ _ _ _ _⟩

/-- C10 (witness): on a raw sample with `dim = 5` the call succeeds and the
sequences clamp at three elements. -/
theorem structure_params_dim_clamp_witness :
    ∃ out, structure_params sampleDim5 = some out ∧
      dictFind out "x_size" = some (.tup [.int 10, .int 32, .int 12]) ∧
      dictFind out "y_steps" = some (.tup [.int 2, .int 1, .int 1]) := by
  obtain ⟨out, h1, h2, _⟩ :=
    structure_params_dim_clamp sampleDim5 (.int 12345) 5 (.int 10) (.int 32)
      (.int 12) (.int 1) (.int 1) (.int 4) (.int 10) (.int 1) (.int 12)
      (.int 2) (.int 1) (.int 1) rfl rfl rfl rfl rfl rfl rfl rfl rfl rfl rfl
      rfl rfl rfl
  obtain ⟨e1, e2, e3, e4⟩ := h2 (by omega)
  exact ⟨out, h1, e1, e4⟩
